import Mathlib

/-!
Shallow embedding of the mapbox-gl-js `Popup` UI component
(`src/ui/popup.js` in the repository).

JavaScript numbers are modelled as rationals (`ℚ`), pixel points as pairs of
rationals, DOM nodes as records of the fields the popup reads or writes, and
the stateful `Popup` object as a `PopupState` record with its methods as
state-transition functions.  Events fired by a method are returned as a list
of event names alongside the new state.
-/

namespace MapboxPopup

/-- A 2-D pixel point, as produced by `@mapbox/point-geometry`'s `Point`. -/
structure JPoint where
  x : ℚ
  y : ℚ
deriving DecidableEq, Repr

/-- `Point.prototype.add`: componentwise addition. -/
def JPoint.add (p q : JPoint) : JPoint := ⟨p.x + q.x, p.y + q.y⟩

/-- Componentwise negation of a point (used only to state symmetry claims). -/
def JPoint.neg (p : JPoint) : JPoint := ⟨-p.x, -p.y⟩

/-- JavaScript `Math.round`: round half toward positive infinity. -/
def jsRound (q : ℚ) : ℤ := ⌊q + 1/2⌋

/-- `Point.prototype.round`: `Math.round` applied to each coordinate. -/
def JPoint.round (p : JPoint) : JPoint := ⟨(jsRound p.x : ℚ), (jsRound p.y : ℚ)⟩

/-- The nine anchor positions of `src/ui/anchor.js`'s `Anchor` type. -/
inductive Anchor where
  | center
  | top
  | topLeft
  | topRight
  | bottom
  | bottomLeft
  | bottomRight
  | left
  | right
deriving DecidableEq, Repr

/-- The string name of each anchor, as used as object keys and joined
anchor components in the source. -/
def Anchor.name : Anchor → String
  | .center => "center"
  | .top => "top"
  | .topLeft => "top-left"
  | .topRight => "top-right"
  | .bottom => "bottom"
  | .bottomLeft => "bottom-left"
  | .bottomRight => "bottom-right"
  | .left => "left"
  | .right => "right"

/-- Partial inverse of `Anchor.name`. -/
def Anchor.ofString (s : String) : Option Anchor :=
  if s = "center" then some .center
  else if s = "top" then some .top
  else if s = "top-left" then some .topLeft
  else if s = "top-right" then some .topRight
  else if s = "bottom" then some .bottom
  else if s = "bottom-left" then some .bottomLeft
  else if s = "bottom-right" then some .bottomRight
  else if s = "left" then some .left
  else if s = "right" then some .right
  else none

/-- A `PointLike`: either a `Point` or an `[x, y]` array of two numbers. -/
inductive PointLike where
  | pt (p : JPoint)
  | arr (x y : ℚ)
deriving DecidableEq, Repr

/-- `Point.convert`: a `Point` passes through, an array of two numbers is
turned into a `Point`. -/
def Point.convert : PointLike → JPoint
  | .pt p => p
  | .arr x y => ⟨x, y⟩

/-- The `Offset` type of `popup.js`: a number, a `PointLike`, or an object
mapping anchor names to `PointLike`s.  A JavaScript object is modelled as a
function from string keys to optional values. -/
inductive Offset where
  | num (r : ℚ)
  | single (p : PointLike)
  | perAnchor (m : String → Option PointLike)

/-- `Math.round(Math.sqrt(0.5 * Math.pow(r, 2)))`, computed exactly on
rationals: for `r = a / b` in lowest terms, `sqrt(0.5 * r^2) = sqrt(2*a^2) / (2*b)`,
and `⌊x / n⌋ = ⌊⌊x⌋ / n⌋` for integer `n > 0` gives
`⌊sqrt(2*a^2)/(2*b) + 1/2⌋ = (⌊sqrt(2*a^2)⌋ + b) / (2*b)` in natural division.
`cornerOffset_eq_round_sqrt` below proves this encoding equal to the rounded
real square root. -/
def cornerOffset (r : ℚ) : ℕ :=
  (Nat.sqrt (2 * r.num.natAbs ^ 2) + r.den) / (2 * r.den)

/-- The three non-null branches of `normalizeOffset` (`popup.js` lines
327-370): a numeric radius expands to the nine-entry table with rounded
diagonal corners, a single `PointLike` is applied to every anchor, and a
per-anchor object resolves each of the nine names with `|| [0, 0]` as the
default. -/
def normalizeOffsetSome : Offset → Anchor → JPoint
  | .num r => fun a =>
    let c : ℚ := (cornerOffset r : ℚ)
    match a with
    | .center => ⟨0, 0⟩
    | .top => ⟨0, r⟩
    | .topLeft => ⟨c, c⟩
    | .topRight => ⟨-c, c⟩
    | .bottom => ⟨0, -r⟩
    | .bottomLeft => ⟨c, -c⟩
    | .bottomRight => ⟨-c, -c⟩
    | .left => ⟨r, 0⟩
    | .right => ⟨-r, 0⟩
  | .single p => fun _ => Point.convert p
  | .perAnchor m => fun a => Point.convert ((m a.name).getD (.arr 0 0))

/-- `normalizeOffset` (`popup.js` lines 323-371).  A missing offset recurses
on `new Point(0, 0)`, i.e. the single-point branch with the zero point. -/
def normalizeOffset : Option Offset → Anchor → JPoint
  | none => normalizeOffsetSome (.single (.pt ⟨0, 0⟩))
  | some o => normalizeOffsetSome o

/-- The automatic anchor selection of `Popup._update` (`popup.js` lines
286-310), run when `options.anchor` is unset: the vertical component list,
then the horizontal component pushed onto it, joined with `-` and cast to an
`Anchor` (the source performs an unchecked cast; the `.getD .center` default
is unreachable because every producible join is a valid anchor name), with
`'bottom'` when no component triggered. -/
def autoAnchor (pos : JPoint) (width height vpWidth vpHeight : ℚ)
    (offset : Anchor → JPoint) : Anchor :=
  let vert : List String :=
    if pos.y + (offset .bottom).y < height then ["top"]
    else if pos.y > vpHeight - height then ["bottom"]
    else []
  let comps : List String :=
    if pos.x < width / 2 then vert ++ ["left"]
    else if pos.x > vpWidth - width / 2 then vert ++ ["right"]
    else vert
  if comps = [] then .bottom
  else (Anchor.ofString (String.intercalate "-" comps)).getD .center

/-- A geographic coordinate (`src/geo/lng_lat.js`, not under src/): longitude
and latitude in degrees. -/
structure LngLat where
  lng : ℚ
  lat : ℚ
deriving DecidableEq, Repr

/-- The slice of the map's view transform the popup reads: viewport pixel
width and height, the `renderWorldCopies` flag, and (spec-modelled, see
`smartWrap`) the number of 360-degree world copies the wrapping step shifts
a coordinate by. -/
structure Transform where
  width : ℚ
  height : ℚ
  renderWorldCopies : Bool
  wrapCount : LngLat → Option JPoint → ℤ

/-- The slice of the `Map` collaborator the popup uses: its transform and
its geographic-to-pixel projection. -/
structure MapModel where
  transform : Transform
  project : LngLat → JPoint

/-- Modelled from the spec: `smartWrap` (`src/util/smart_wrap.js`) is not
under src/.  The spec and the `getLngLat` doc comment state that the popup
wraps the anchor longitude so the popup stays on screen, so the returned
longitude may differ from the one set by a multiple of 360 degrees; which
multiple is the view's choice, here the transform's `wrapCount` applied to
the coordinate and the previously computed pixel position.  Latitude is
unchanged. -/
def smartWrap (l : LngLat) (pos : Option JPoint) (t : Transform) : LngLat :=
  ⟨l.lng + 360 * (t.wrapCount l pos : ℚ), l.lat⟩

/-- The popup's content node; the browser layout assigns it the pixel
dimensions the container reports as `offsetWidth` and `offsetHeight`. -/
structure ContentNode where
  width : ℚ := 0
  height : ℚ := 0
deriving DecidableEq, Repr

/-- The popup's container `div`, with the fields `_update` reads
(`offsetWidth`, `offsetHeight`) and writes.  The CSS transform string
`` `anchorTranslate[anchor] translate(Xpx,Ypx)` `` is kept structured as the
anchor key and the pixel translation; `anchorClass` records the
`applyAnchorClass` result. -/
structure Container where
  width : ℚ
  height : ℚ
  transform : Option (Anchor × JPoint) := none
  anchorClass : Option Anchor := none
deriving DecidableEq, Repr

/-- `PopupOptions` with the `defaultOptions` of `popup.js` as defaults. -/
structure PopupOptions where
  closeButton : Bool := true
  closeOnClick : Bool := true
  anchor : Option Anchor := none
  offset : Option Offset := none
  className : String := ""

/-- The mutable state of a `Popup` instance: `_map`, `_lngLat`, `_content`,
`_container`, `_pos` (each `none` before being set, mirroring the undefined
JavaScript fields) and the construction options. -/
structure PopupState where
  options : PopupOptions
  map : Option MapModel := none
  lngLat : Option LngLat := none
  content : Option ContentNode := none
  container : Option Container := none
  pos : Option JPoint := none

/-- `Popup._update` (`popup.js` lines 263-316).  Short-circuits unless
`_map`, `_lngLat` and `_content` are all present; otherwise creates the
container if absent (its layout dimensions coming from the content), wraps
the coordinate when `renderWorldCopies` is on, projects it, normalizes the
offset, picks the anchor (explicit option or automatic selection), and
writes the rounded translated position and the anchor class to the
container. -/
def Popup.update (s : PopupState) : PopupState :=
  match s.map, s.lngLat, s.content with
  | some m, some l, some c =>
    let cont := s.container.getD { width := c.width, height := c.height }
    let l' := if m.transform.renderWorldCopies then smartWrap l s.pos m.transform else l
    let pos := m.project l'
    let offset := normalizeOffset s.options.offset
    let anchor := (s.options.anchor).getD
      (autoAnchor pos cont.width cont.height m.transform.width m.transform.height offset)
    let offsetedPos := (pos.add (offset anchor)).round
    { s with
      lngLat := some l'
      pos := some pos
      container := some { cont with transform := some (anchor, offsetedPos),
                                    anchorClass := some anchor } }
  | _, _, _ => s

/-- `Popup.addTo` (`popup.js` lines 91-111): store the map, run `_update`,
fire `open`.  The event subscriptions have no represented state.  Returned
events are the list of event names fired by the call. -/
def Popup.addTo (m : MapModel) (s : PopupState) : PopupState × List String :=
  let s1 := { s with map := some m }
  let s2 := Popup.update s1
  (s2, ["open"])

/-- `Popup.isOpen` (`popup.js` lines 116-118): `!!this._map`. -/
def Popup.isOpen (s : PopupState) : Bool :=
  s.map.isSome

/-- `Popup.remove` (`popup.js` lines 128-156): detach the content node from
the DOM if present (the `_content` field itself is never cleared), delete
the container if present, unsubscribe and delete the map if present, then
fire `close` unconditionally. -/
def Popup.remove (s : PopupState) : PopupState × List String :=
  let s1 := if s.container.isSome then { s with container := none } else s
  let s2 := if s1.map.isSome then { s1 with map := none } else s1
  (s2, ["close"])

/-- `Popup.getLngLat` (`popup.js` lines 166-168). -/
def Popup.getLngLat (s : PopupState) : Option LngLat :=
  s.lngLat

/-- `Popup.setLngLat` (`popup.js` lines 176-181): store the converted
coordinate (`LngLat.convert` of a coordinate is the identity), null `_pos`,
run `_update`. -/
def Popup.setLngLat (l : LngLat) (s : PopupState) : PopupState :=
  Popup.update { s with lngLat := some l, pos := none }

/-- `Popup.setDOMContent` (`popup.js` lines 240-245) combined with
`_createContent`: replace the content node, run `_update`.  `setText` and
`setHTML` both reduce to this. -/
def Popup.setDOMContent (c : ContentNode) (s : PopupState) : PopupState :=
  Popup.update { s with content := some c }

/-! ### Concrete fixtures used by counterexamples and witnesses -/

/-- A popup as built by `new Popup()` with the default options. -/
def emptyPopup : PopupState := { options := {} }

/-- A concrete map: 200 by 200 pixel viewport, world copies off, and the
projection that reads a coordinate's degrees directly as pixels. -/
def mapFixture : MapModel :=
  { transform := { width := 200, height := 200, renderWorldCopies := false,
                   wrapCount := fun _ _ => 0 },
    project := fun l => ⟨l.lng, l.lat⟩ }

/-- A concrete map with world-copy wrapping on whose wrapping step always
shifts the coordinate east by one world copy (360 degrees). -/
def wrapMapFixture : MapModel :=
  { transform := { width := 200, height := 200, renderWorldCopies := true,
                   wrapCount := fun _ _ => 1 },
    project := fun l => ⟨l.lng, l.lat⟩ }

/-- A 20 by 20 pixel content node. -/
def contentFixture : ContentNode := { width := 20, height := 20 }

/-- A per-anchor offset object holding only a `top` entry. -/
def perAnchorFixture : String → Option PointLike :=
  fun s => if s = "top" then some (.arr 1 2) else none

/-- The same per-anchor offset object with an extra entry under the key
`foo`, which is not one of the nine anchor names. -/
def perAnchorJunkFixture : String → Option PointLike :=
  fun s => if s = "top" then some (.arr 1 2)
           else if s = "foo" then some (.arr 9 9)
           else none

/-- A popup with content set, attached to the wrapping map, but with no
location yet. -/
def wrapPopupFixture : PopupState :=
  (Popup.addTo wrapMapFixture
    (Popup.setDOMContent contentFixture emptyPopup)).1

/-- A popup with location and content set and then attached, i.e. open and
rendered. -/
def openPopupFixture : PopupState :=
  (Popup.addTo mapFixture
    (Popup.setDOMContent contentFixture
      (Popup.setLngLat ⟨10, 10⟩ emptyPopup))).1

end MapboxPopup

namespace MapboxPopup

/-! ### Claims -/

/-- Soundness of the exact-rational encoding in `cornerOffset`: it equals
the floor of `sqrt(r^2 / 2) + 1/2` over the reals, which is JavaScript's
`Math.round(Math.sqrt(0.5 * r^2))` (`Math.round` rounds half up and the
square root is nonnegative, so the integer and natural floors agree). -/
theorem cornerOffset_eq_round_sqrt (r : ℚ) :
    cornerOffset r = ⌊Real.sqrt ((r:ℝ)^2 / 2) + 1/2⌋₊ := by
  set a : ℕ := r.num.natAbs with ha
  set b : ℕ := r.den with hb
  have hb0 : (0:ℝ) < (b:ℝ) := by
    have := r.pos
    exact_mod_cast this
  have harg : ((r:ℝ))^2 / 2 = ((2*a^2 : ℕ):ℝ) / (((2*b : ℕ)):ℝ)^2 := by
    have hcast : (r:ℝ) = (r.num : ℝ) / (r.den : ℝ) := Rat.cast_def r
    have hnum : ((r.num:ℝ))^2 = ((a:ℕ):ℝ)^2 := by
      rw [ha]
      push_cast [Int.cast_natAbs]
      rw [sq_abs]
    push_cast
    rw [hcast]
    rw [div_pow]
    rw [← hnum]
    field_simp
    ring
  have hsq : Real.sqrt ((r:ℝ)^2 / 2) = Real.sqrt ((2*a^2 : ℕ)) / ((2*b : ℕ):ℝ) := by
    rw [harg, Real.sqrt_div (by positivity), Real.sqrt_sq (by positivity)]
  have hsum : Real.sqrt ((2*a^2 : ℕ)) / ((2*b : ℕ):ℝ) + 1/2
      = (Real.sqrt ((2*a^2 : ℕ)) + (b:ℝ)) / ((2*b : ℕ):ℝ) := by
    push_cast
    field_simp
    ring
  rw [hsq, hsum]
  rw [show ((2*b : ℕ):ℝ) = (((2*b : ℕ):ℕ):ℝ) by norm_cast]
  rw [Nat.floor_div_nat]
  rw [Nat.floor_add_nat (Real.sqrt_nonneg _)]
  rw [Real.nat_floor_real_sqrt_eq_nat_sqrt]
  rfl

/-- C1, counterexample.  The claim says calling `remove` on an
already-detached popup fires no `close` notification; in the code the
`close` event is fired unconditionally at the end of `remove`, so the second
of two back-to-back `remove` calls on a fresh popup still fires `close`. -/
theorem remove_detached_fires_close_counterexample :
    (Popup.remove (Popup.remove emptyPopup).1).2 = ["close"] ∧
    (Popup.remove (Popup.remove emptyPopup).1).2 ≠ ([] : List String) :=
  ⟨rfl, by simp [Popup.remove]⟩

/-- C1, amended.  Calling `remove` while already detached throws no error
and changes no state (the state after a second `remove` equals the state
after the first), but the `close` notification fires on every `remove`
call, including when the popup is already detached: it is not limited to
actual open-to-closed transitions. -/
theorem remove_remove_state_noop_but_fires_close (s : PopupState) :
    Popup.remove (Popup.remove s).1 = ((Popup.remove s).1, ["close"]) := by
  cases hc : s.container <;> cases hm : s.map <;>
    simp [Popup.remove, hc, hm]

/-- C2, counterexample.  The claim says `isOpen` returns `true` exactly when
the popup is attached and both its location and its content are set; in the
code `isOpen` is `!!this._map`, so attaching an empty popup (no location, no
content) already reports it open. -/
theorem isOpen_counterexample :
    Popup.isOpen (Popup.addTo mapFixture emptyPopup).1 = true ∧
    (Popup.addTo mapFixture emptyPopup).1.lngLat = none ∧
    (Popup.addTo mapFixture emptyPopup).1.content = none :=
  ⟨rfl, rfl, rfl⟩

/-- C2, amended.  A popup is reported open by `isOpen` exactly when it is
attached to a view (its map reference is set), regardless of whether its
geographic location or its content are set; after an explicit `remove` it is
reported closed. -/
theorem isOpen_iff_attached :
    (∀ s : PopupState, Popup.isOpen s = s.map.isSome) ∧
    (∀ s : PopupState, Popup.isOpen (Popup.remove s).1 = false) := by
  refine ⟨fun s => rfl, fun s => ?_⟩
  cases hc : s.container <;> cases hm : s.map <;>
    simp [Popup.remove, Popup.isOpen, hc, hm]

/-- C3.  With no explicit anchor, automatic anchor selection is the stated
deterministic function of position, container dimensions, viewport
dimensions and offset: vertical component `top` when
`pos.y + offset[bottom].y < height`, else `bottom` when
`pos.y > viewportHeight - height`, else empty; horizontal component `left`
when `pos.x < width / 2`, else `right` when
`pos.x > viewportWidth - width / 2`, else empty; components joined as
vertical-horizontal, and in particular `pos = (10, 10)`, a 20 by 20
container, a 200 by 200 viewport and zero offset select exactly `top`. -/
theorem autoAnchor_deterministic_selection :
    (∀ (pos : JPoint) (w h vw vh : ℚ) (off : Anchor → JPoint),
      autoAnchor pos w h vw vh off =
        if pos.y + (off .bottom).y < h then
          (if pos.x < w / 2 then .topLeft
           else if pos.x > vw - w / 2 then .topRight
           else .top)
        else if pos.y > vh - h then
          (if pos.x < w / 2 then .bottomLeft
           else if pos.x > vw - w / 2 then .bottomRight
           else .bottom)
        else
          (if pos.x < w / 2 then .left
           else if pos.x > vw - w / 2 then .right
           else .bottom)) ∧
    autoAnchor ⟨10, 10⟩ 20 20 200 200 (normalizeOffset none) = .top := by
  constructor
  · intro pos w h vw vh off
    simp only [autoAnchor]
    split_ifs <;> first | decide | simp_all
  · have h1 : (10:ℚ) + (normalizeOffset none .bottom).y < 20 := by
      norm_num [normalizeOffset, normalizeOffsetSome, Point.convert]
    have h2 : ¬ ((10:ℚ) < 20 / 2) := by norm_num
    have h3 : ¬ ((10:ℚ) > 200 - 20 / 2) := by norm_num
    simp [autoAnchor, h1, h2, h3]
    decide

/-- C4.  When no explicit anchor is set and neither the vertical nor the
horizontal condition of automatic anchor selection triggers, the selected
anchor is exactly `bottom`; since the selection function is total on the
`Anchor` type, no anchor is ever left unresolved. -/
theorem autoAnchor_fallback_bottom (pos : JPoint) (w h vw vh : ℚ)
    (off : Anchor → JPoint)
    (h1 : ¬ (pos.y + (off .bottom).y < h)) (h2 : ¬ (pos.y > vh - h))
    (h3 : ¬ (pos.x < w / 2)) (h4 : ¬ (pos.x > vw - w / 2)) :
    autoAnchor pos w h vw vh off = .bottom := by
  simp [autoAnchor, h1, h2, h3, h4]

/-- C4, witness: a projected position at (100, 100) in a 200 by 200
viewport with a zero-size container and zero offset triggers none of the
four conditions and selects `bottom`. -/
theorem autoAnchor_fallback_bottom_witness :
    autoAnchor ⟨100, 100⟩ 0 0 200 200 (normalizeOffset none) = .bottom :=
  autoAnchor_fallback_bottom ⟨100, 100⟩ 0 0 200 200 (normalizeOffset none)
    (by simp [normalizeOffset, normalizeOffsetSome, Point.convert])
    (by simp; decide) (by simp) (by simp; decide)

/-- C5.  The offset table built from a numeric radius is bilaterally
symmetric: the `left` entry is the negation of the `right` entry, the `top`
entry is the negation of the `bottom` entry, and each of the four corner
entries has per-axis magnitude `round(sqrt(0.5 * r^2))`, i.e.
`cornerOffset r`. -/
theorem radius_offset_bilateral_symmetry (r : ℚ) :
    normalizeOffset (some (.num r)) .left = (normalizeOffset (some (.num r)) .right).neg ∧
    normalizeOffset (some (.num r)) .top = (normalizeOffset (some (.num r)) .bottom).neg ∧
    |(normalizeOffset (some (.num r)) .topLeft).x| = (cornerOffset r : ℚ) ∧
    |(normalizeOffset (some (.num r)) .topLeft).y| = (cornerOffset r : ℚ) ∧
    |(normalizeOffset (some (.num r)) .topRight).x| = (cornerOffset r : ℚ) ∧
    |(normalizeOffset (some (.num r)) .topRight).y| = (cornerOffset r : ℚ) ∧
    |(normalizeOffset (some (.num r)) .bottomLeft).x| = (cornerOffset r : ℚ) ∧
    |(normalizeOffset (some (.num r)) .bottomLeft).y| = (cornerOffset r : ℚ) ∧
    |(normalizeOffset (some (.num r)) .bottomRight).x| = (cornerOffset r : ℚ) ∧
    |(normalizeOffset (some (.num r)) .bottomRight).y| = (cornerOffset r : ℚ) := by
  simp [normalizeOffset, normalizeOffsetSome, JPoint.neg, Nat.abs_cast, abs_neg]

/-- C10.  The four corner entries of the numeric-radius offset table depend
only on the magnitude of the radius: the tables for `r` and `-r` have
identical corner entries (whose per-axis value has the nonnegative magnitude
`cornerOffset r`), while the four straight-edge entries negate when the
radius negates. -/
theorem radius_sign_corner_invariance (r : ℚ) :
    (normalizeOffset (some (.num (-r))) .topLeft = normalizeOffset (some (.num r)) .topLeft ∧
     normalizeOffset (some (.num (-r))) .topRight = normalizeOffset (some (.num r)) .topRight ∧
     normalizeOffset (some (.num (-r))) .bottomLeft = normalizeOffset (some (.num r)) .bottomLeft ∧
     normalizeOffset (some (.num (-r))) .bottomRight = normalizeOffset (some (.num r)) .bottomRight) ∧
    (normalizeOffset (some (.num (-r))) .top = (normalizeOffset (some (.num r)) .top).neg ∧
     normalizeOffset (some (.num (-r))) .bottom = (normalizeOffset (some (.num r)) .bottom).neg ∧
     normalizeOffset (some (.num (-r))) .left = (normalizeOffset (some (.num r)) .left).neg ∧
     normalizeOffset (some (.num (-r))) .right = (normalizeOffset (some (.num r)) .right).neg) ∧
    (normalizeOffset (some (.num r)) .topLeft).x = (cornerOffset r : ℚ) ∧
    (0:ℚ) ≤ (cornerOffset r : ℚ) := by
  have hco : cornerOffset (-r) = cornerOffset r := by
    simp [cornerOffset, Rat.num_neg_eq_neg_num, Rat.den_neg_eq_den]
  simp [normalizeOffset, normalizeOffsetSome, JPoint.neg, hco]

/-- C6.  For a per-anchor offset mapping, each of the nine table entries is
the mapping's value for that anchor name converted to a point when the key
is present, and `(0, 0)` when it is absent; and two mappings agreeing on the
nine anchor names (differing only on other keys) yield the same table, so
keys outside the nine anchor names have no effect. -/
theorem perAnchor_offset_resolution (m m' : String → Option PointLike) (a : Anchor)
    (hagree : ∀ b : Anchor, m b.name = m' b.name) :
    normalizeOffset (some (.perAnchor m)) a =
      (match m a.name with
       | some p => Point.convert p
       | none => ⟨0, 0⟩) ∧
    normalizeOffset (some (.perAnchor m)) a =
      normalizeOffset (some (.perAnchor m')) a := by
  constructor
  · cases hma : m a.name <;>
      simp [normalizeOffset, normalizeOffsetSome, hma, Point.convert]
  · simp [normalizeOffset, normalizeOffsetSome, hagree a]

/-- C6, witness: at the `top` anchor, a mapping holding only a `top` entry
resolves to it, and adding an entry under the non-anchor key `foo` leaves
the table unchanged. -/
theorem perAnchor_offset_resolution_witness :
    normalizeOffset (some (.perAnchor perAnchorFixture)) .top =
      (match perAnchorFixture Anchor.top.name with
       | some p => Point.convert p
       | none => ⟨0, 0⟩) ∧
    normalizeOffset (some (.perAnchor perAnchorFixture)) .top =
      normalizeOffset (some (.perAnchor perAnchorJunkFixture)) .top :=
  perAnchor_offset_resolution perAnchorFixture perAnchorJunkFixture .top
    (fun b => by cases b <;> rfl)

/-- C7.  `_update` renders (writes the container's transform and anchor
class) only when the popup is attached, its location is set and its content
is set; when any of the three is missing the update returns the state
unchanged. -/
theorem update_noop_unless_complete (s : PopupState) :
    ((s.map = none ∨ s.lngLat = none ∨ s.content = none) → Popup.update s = s) ∧
    (∀ m l c, s.map = some m → s.lngLat = some l → s.content = some c →
      ∃ cont, (Popup.update s).container = some cont ∧
        cont.transform ≠ none ∧ cont.anchorClass ≠ none) := by
  constructor
  · intro hmiss
    rcases hm : s.map with _ | m
    · simp [Popup.update, hm]
    · rcases hl : s.lngLat with _ | l
      · simp [Popup.update, hm, hl]
      · rcases hc : s.content with _ | c
        · simp [Popup.update, hm, hl, hc]
        · rcases hmiss with h | h | h <;> simp_all
  · intro m l c hm hl hc
    simp only [Popup.update, hm, hl, hc]
    exact ⟨_, rfl, by simp, by simp⟩

/-- C7, witness: the update of a popup with no map is a no-op, and the
update of an attached popup with location and content renders. -/
theorem update_noop_unless_complete_witness :
    Popup.update emptyPopup = emptyPopup ∧
    ∃ cont, (Popup.update openPopupFixture).container = some cont ∧
      cont.transform ≠ none ∧ cont.anchorClass ≠ none :=
  ⟨(update_noop_unless_complete emptyPopup).1 (Or.inl rfl),
   (update_noop_unless_complete openPopupFixture).2 mapFixture ⟨10, 10⟩
     contentFixture rfl rfl rfl⟩

/-- C8.  Whenever the popup renders, the pixel position written to the
container transform is the projection of the (possibly wrapped) geographic
coordinate plus the normalized offset entry for the chosen anchor, rounded:
`renderedPosition = round(projectedPosition + normalizedOffset[anchor])`. -/
theorem rendered_position_round_projected_plus_offset
    (s : PopupState) (m : MapModel) (l : LngLat) (c : ContentNode)
    (hm : s.map = some m) (hl : s.lngLat = some l) (hc : s.content = some c) :
    ∃ cont a l' p,
      (Popup.update s).container = some cont ∧
      (Popup.update s).lngLat = some l' ∧
      (Popup.update s).pos = some p ∧
      p = m.project l' ∧
      cont.transform = some (a, (p.add (normalizeOffset s.options.offset a)).round) := by
  simp only [Popup.update, hm, hl, hc]
  exact ⟨_, _, _, _, rfl, rfl, rfl, rfl, rfl⟩

/-- C8, witness: the rendered position equation at the concrete open
popup. -/
theorem rendered_position_witness :
    ∃ cont a l' p,
      (Popup.update openPopupFixture).container = some cont ∧
      (Popup.update openPopupFixture).lngLat = some l' ∧
      (Popup.update openPopupFixture).pos = some p ∧
      p = mapFixture.project l' ∧
      cont.transform =
        some (a, (p.add (normalizeOffset openPopupFixture.options.offset a)).round) :=
  rendered_position_round_projected_plus_offset openPopupFixture mapFixture
    ⟨10, 10⟩ contentFixture rfl rfl rfl

/-- C9.  Setting the geographic location and immediately querying it
returns the same coordinate up to a multiple of 360 degrees of longitude,
and exactly the same coordinate whenever the popup is not attached to a
view with world-copy wrapping enabled. -/
theorem setLngLat_getLngLat_roundtrip (s : PopupState) (l : LngLat) :
    ∃ k : ℤ,
      Popup.getLngLat (Popup.setLngLat l s) = some ⟨l.lng + 360 * (k:ℚ), l.lat⟩ ∧
      ((∀ m, s.map = some m → m.transform.renderWorldCopies = false) → k = 0) := by
  unfold Popup.setLngLat Popup.getLngLat
  rcases hm : s.map with _ | m
  · refine ⟨0, ?_, fun _ => rfl⟩
    simp [Popup.update, hm]
  · rcases hc : s.content with _ | c
    · refine ⟨0, ?_, fun _ => rfl⟩
      simp [Popup.update, hm, hc]
    · by_cases hw : m.transform.renderWorldCopies
      · refine ⟨m.transform.wrapCount l none, ?_, ?_⟩
        · simp [Popup.update, hm, hc, hw, smartWrap]
        · intro hall
          exact absurd (hall m rfl) (by simp [hw])
      · refine ⟨0, ?_, fun _ => rfl⟩
        simp [Popup.update, hm, hc, hw]

/-- C9, witness: on a popup attached to the wrapping map, setting
`(10, 20)` and querying returns latitude 20 and longitude differing from 10
by a multiple of 360. -/
theorem setLngLat_getLngLat_roundtrip_witness :
    ∃ k : ℤ,
      Popup.getLngLat (Popup.setLngLat ⟨10, 20⟩ wrapPopupFixture) =
        some ⟨(10:ℚ) + 360 * (k:ℚ), 20⟩ ∧
      ((∀ m, wrapPopupFixture.map = some m →
          m.transform.renderWorldCopies = false) → k = 0) :=
  setLngLat_getLngLat_roundtrip wrapPopupFixture ⟨10, 20⟩

end MapboxPopup
